import Mathlib

/-!
Verification of the worksheet OCR pipeline (`src/backend/ocr_pipeline.py`).

The pipeline encodes an image as a base64 data URL, sends it with a fixed
prompt to an external vision model, and parses the model's raw text reply
into a cleaned list of question/answer records.

Shallow embedding conventions:
* JSON values (the result of Python `json.loads`) are the inductive `Json`.
  Numbers are modelled as integers; the claims under study never inspect
  numeric payloads, only their being non-strings.
* `json.loads` itself is Python standard library, not repository code, so it
  is modelled as an opaque parameter `parse : String → Option Json`
  (`none` = `json.JSONDecodeError`).
* Python `str(x)` on decoded JSON values is `pyStr`; `str.strip()` is
  `pyStrip` (ASCII whitespace; exotic Unicode whitespace is out of scope).
* File bytes are `List Nat` (each `< 256`); the external world (environment
  variables, the file's bytes, the model's reply) are explicit parameters.
* Observable side effects (file read, network request, `print` calls) are
  recorded in an `Effect` trace returned next to the result.
* Exceptions are an `Except ExtractError _`: `RuntimeError` for the missing
  credential is `configurationError`, a re-raised `json.JSONDecodeError` is
  `malformedResponse`, the `ValueError` for a non-array top level is
  `unexpectedShape`.
-/

namespace OcrPipeline

/-- JSON values as produced by Python `json.loads`: null, booleans, numbers
(modelled as integers), strings, arrays, and objects (key/value lists, later
duplicate keys shadowing earlier ones as in Python dicts). -/
inductive Json where
  | null : Json
  | bool (b : Bool) : Json
  | num (n : Int) : Json
  | str (s : String) : Json
  | arr (xs : List Json) : Json
  | obj (kvs : List (String × Json)) : Json
deriving Inhabited

/-- The apostrophe character, used by Python `repr` of strings. -/
def pyQuote : Char := Char.ofNat 39

/-- Python `repr` of a string: quoted form. Python prefers single quotes and
switches to double quotes when the text holds a single quote but no double
quote; escape sequences for control characters beyond backslash, quote and
newline are not modelled (no claim depends on nested-container rendering). -/
def pyReprStr (s : String) : String :=
  if s.contains pyQuote && !(s.contains '"') then
    "\"" ++ s ++ "\""
  else
    String.singleton pyQuote ++ s ++ String.singleton pyQuote

mutual

/-- Python `repr` of a decoded JSON value (used for elements inside lists and
dicts when `str` renders a container). -/
def pyRepr : Json → String
  | Json.null => "None"
  | Json.bool true => "True"
  | Json.bool false => "False"
  | Json.num n => toString n
  | Json.str s => pyReprStr s
  | Json.arr xs => "[" ++ pyReprList xs ++ "]"
  | Json.obj kvs => "\x7b" ++ pyReprObj kvs ++ "\x7d"

/-- Comma-separated `repr` of list elements. -/
def pyReprList : List Json → String
  | [] => ""
  | [x] => pyRepr x
  | x :: xs => pyRepr x ++ ", " ++ pyReprList xs

/-- Comma-separated `repr` of dict entries. -/
def pyReprObj : List (String × Json) → String
  | [] => ""
  | [(k, v)] => pyReprStr k ++ ": " ++ pyRepr v
  | (k, v) :: kvs => pyReprStr k ++ ": " ++ pyRepr v ++ ", " ++ pyReprObj kvs

end

/-- Python `str()` applied to a decoded JSON value: identity on strings,
`"None"`/`"True"`/`"False"` for null and booleans, decimal rendering for
numbers, `repr`-style rendering for containers. -/
def pyStr : Json → String
  | Json.null => "None"
  | Json.bool true => "True"
  | Json.bool false => "False"
  | Json.num n => toString n
  | Json.str s => s
  | Json.arr xs => pyRepr (Json.arr xs)
  | Json.obj kvs => pyRepr (Json.obj kvs)

/-- The whitespace characters stripped by Python `str.strip()` (ASCII part:
space, tab, newline, carriage return, vertical tab, form feed). -/
def isPySpace (c : Char) : Bool :=
  c = ' ' || c = '\t' || c = '\n' || c = '\r' || c = Char.ofNat 11 || c = Char.ofNat 12

/-- Python `str.strip()`: remove leading and trailing whitespace. -/
def pyStrip (s : String) : String :=
  String.mk (((s.data.dropWhile isPySpace).reverse.dropWhile isPySpace).reverse)

/-- Lookup in a decoded JSON object, later duplicate keys shadowing earlier
ones exactly as `json.loads` builds a Python dict. -/
def jsonLookup (kvs : List (String × Json)) (k : String) : Option Json :=
  (kvs.reverse.find? (fun p => p.1 == k)).map (fun p => p.2)

/-- `str(item.get(k, ""))`: the field's value coerced with `str`, defaulting
to the empty string when the key is absent. -/
def getStrField (kvs : List (String × Json)) (k : String) : String :=
  match jsonLookup kvs k with
  | some v => pyStr v
  | none => ""

/-- The canonical output unit: one cleaned question/answer record
(a dict with exactly these four string fields in the Python code). -/
structure QARecord where
  question_number : String
  question_text : String
  student_answer : String
  student_working : String
deriving Repr, DecidableEq, Inhabited

/-- Error taxonomy of the pipeline: `RuntimeError` for the absent credential,
re-raised `json.JSONDecodeError`, `ValueError` for a non-array top level. -/
inductive ExtractError where
  | configurationError : ExtractError
  | malformedResponse : ExtractError
  | unexpectedShape : ExtractError
deriving Repr, DecidableEq

/-- The per-element cleaning step of the loop in `extract_qa_from_image`:
non-dict elements are skipped (`none`); for dicts the four fields are
coerced to strings, stripped, and the record is dropped when both
`question_number` and `question_text` strip to empty. -/
def cleanItem : Json → Option QARecord
  | Json.obj kvs =>
    let qn := pyStrip (getStrField kvs "question_number")
    let qtext := pyStrip (getStrField kvs "question_text")
    let sans := pyStrip (getStrField kvs "student_answer")
    let work := pyStrip (getStrField kvs "student_working")
    if qn = "" ∧ qtext = "" then none
    else some ⟨qn, qtext, sans, work⟩
  | _ => none

/-- The shape check and cleaning loop of `extract_qa_from_image` applied to
the decoded JSON value: a non-array top level raises `ValueError`, an array
is cleaned element by element in order. -/
def cleanRecords : Json → Except ExtractError (List QARecord)
  | Json.arr items => Except.ok (items.filterMap cleanItem)
  | _ => Except.error ExtractError.unexpectedShape

/-- The parser stage of `extract_qa_from_image`, from the model's raw output
text on: strip it, `json.loads` it (the opaque `parse`), on decode failure
print a diagnostic banner and the raw text then re-raise, otherwise run the
shape check and cleaning loop. The first component is the list of strings
passed to `print`, in order. -/
def parse_and_clean (parse : String → Option Json) (output0 : String) :
    List String × Except ExtractError (List QARecord) :=
  let raw := pyStrip output0
  match parse raw with
  | none =>
    (["Vision model JSON parse failed. Raw output below:\n", raw],
     Except.error ExtractError.malformedResponse)
  | some data => ([], cleanRecords data)

/-- Observable side effects of one extraction call, in order of occurrence:
reading the image file, issuing the network request (carrying the data URL),
and `print` calls. -/
inductive Effect where
  | fileRead (path : String) : Effect
  | networkRequest (imageDataUrl : String) : Effect
  | printed (s : String) : Effect
deriving Repr, DecidableEq

/-- The base64 alphabet, index 0 to 63. -/
def b64Alphabet : List Char :=
  ['A', 'B', 'C', 'D', 'E', 'F', 'G', 'H', 'I', 'J', 'K', 'L', 'M',
   'N', 'O', 'P', 'Q', 'R', 'S', 'T', 'U', 'V', 'W', 'X', 'Y', 'Z',
   'a', 'b', 'c', 'd', 'e', 'f', 'g', 'h', 'i', 'j', 'k', 'l', 'm',
   'n', 'o', 'p', 'q', 'r', 's', 't', 'u', 'v', 'w', 'x', 'y', 'z',
   '0', '1', '2', '3', '4', '5', '6', '7', '8', '9', '+', '/']

/-- Character for a 6-bit group. -/
def b64Char (n : Nat) : Char := b64Alphabet.getD n 'A'

/-- Index of a character in the base64 alphabet (`none` for padding or
foreign characters). -/
def b64Index (c : Char) : Option Nat := b64Alphabet.indexOf? c

/-- Standard base64 of a byte list (as in Python `base64.b64encode`):
three bytes become four alphabet characters; a trailing group of two or one
bytes is padded with `'='`. -/
def b64EncodeChunks : List Nat → List Char
  | a :: b :: c :: rest =>
    let n := a * 65536 + b * 256 + c
    b64Char (n / 262144) :: b64Char (n / 4096 % 64) ::
      b64Char (n / 64 % 64) :: b64Char (n % 64) :: b64EncodeChunks rest
  | [a, b] =>
    let n := a * 65536 + b * 256
    [b64Char (n / 262144), b64Char (n / 4096 % 64), b64Char (n / 64 % 64), '=']
  | [a] =>
    let n := a * 65536
    [b64Char (n / 262144), b64Char (n / 4096 % 64), '=', '=']
  | [] => []

/-- Base64 of a byte list, as a string. -/
def base64Encode (bs : List Nat) : String := String.mk (b64EncodeChunks bs)

/-- Base64 decoding of a character list: groups of four characters, with
`'='` padding allowed only at the very end; `none` on any malformed input. -/
def b64DecodeChunks : List Char → Option (List Nat)
  | c1 :: c2 :: c3 :: c4 :: rest =>
    match b64Index c1, b64Index c2 with
    | some s1, some s2 =>
      if c3 = '=' then
        if c4 = '=' ∧ rest = [] then
          some [(s1 * 262144 + s2 * 4096) / 65536]
        else none
      else
        match b64Index c3 with
        | some s3 =>
          if c4 = '=' then
            if rest = [] then
              let n := s1 * 262144 + s2 * 4096 + s3 * 64
              some [n / 65536, n / 256 % 256]
            else none
          else
            match b64Index c4 with
            | some s4 =>
              let n := s1 * 262144 + s2 * 4096 + s3 * 64 + s4
              match b64DecodeChunks rest with
              | some bs => some (n / 65536 :: n / 256 % 256 :: n % 256 :: bs)
              | none => none
            | none => none
        | none => none
    | _, _ => none
  | [] => some []
  | _ => none

/-- Base64 decoding of a string to the byte list it encodes. -/
def base64Decode (s : String) : Option (List Nat) := b64DecodeChunks s.data

/-- The image encoder `_image_to_data_url`: read the file's bytes (here the
byte list itself stands for the readable file) and wrap their base64 in a
fixed `image/jpeg` data URL. -/
def image_to_data_url (fileBytes : List Nat) : String :=
  "data:image/jpeg;base64," ++ base64Encode fileBytes

/-- The full `extract_qa_from_image` call: `_client()` checks the credential
first (Python falsiness: absent or empty string raises `RuntimeError`) before
any file or network I/O; then the file is read and encoded, the request is
sent, and the reply is parsed and cleaned. Returns the ordered effect trace
together with the result. -/
def extract_qa_from_image (env : String → Option String) (fileBytes : List Nat)
    (parse : String → Option Json) (modelOutput : String) (imagePath : String) :
    List Effect × Except ExtractError (List QARecord) :=
  match env "OPENAI_API_KEY" with
  | none => ([], Except.error ExtractError.configurationError)
  | some key =>
    if key = "" then ([], Except.error ExtractError.configurationError)
    else
      let url := image_to_data_url fileBytes
      let pr := parse_and_clean parse modelOutput
      (Effect.fileRead imagePath :: Effect.networkRequest url ::
        pr.1.map Effect.printed, pr.2)

/-- An array element that is a well-formed record object: a JSON object whose
`question_number` or `question_text` survives the string coercion and strip
with non-empty content (the condition under which the cleaning loop keeps
exactly one record for it). -/
def isRecordObj : Json → Bool
  | Json.obj kvs =>
    !(pyStrip (getStrField kvs "question_number") == "" &&
      pyStrip (getStrField kvs "question_text") == "")
  | _ => false

/-- Whether a JSON value is an array (the top-level shape check). -/
def Json.isArr : Json → Bool
  | Json.arr _ => true
  | _ => false

/-- Whether a JSON value is an object/mapping. -/
def Json.isObj : Json → Bool
  | Json.obj _ => true
  | _ => false

end OcrPipeline

namespace OcrPipeline

/-! Helper lemmas about stripping. -/

/-- Dropping a prefix satisfying `p` is idempotent. -/
theorem dropWhile_self {α : Type} (p : α → Bool) (l : List α) :
    (l.dropWhile p).dropWhile p = l.dropWhile p := by
  induction l with
  | nil => rfl
  | cons a t ih =>
    by_cases hp : p a
    · simp [List.dropWhile_cons, hp, ih]
    · simp [List.dropWhile_cons, hp]

/-- The head of a `dropWhile p` result never satisfies `p`. -/
theorem head_of_dropWhile_not {α : Type} (p : α → Bool) (l : List α) (a : α)
    (h : (l.dropWhile p).head? = some a) : p a = false := by
  have h2 := List.head?_dropWhile_not p l
  rw [h] at h2
  exact h2

/-- A list whose head does not satisfy `p` is unchanged by `dropWhile p`. -/
theorem dropWhile_eq_self_of_head {α : Type} (p : α → Bool) (l : List α)
    (h : ∀ a, l.head? = some a → p a = false) : l.dropWhile p = l := by
  cases l with
  | nil => rfl
  | cons a t => simp [List.dropWhile_cons, h a rfl]

/-- Stripping both ends of a list is idempotent. -/
theorem stripEnds_idem {α : Type} (p : α → Bool) (l : List α) :
    (((((((l.dropWhile p).reverse.dropWhile p).reverse).dropWhile p).reverse).dropWhile p).reverse)
      = ((l.dropWhile p).reverse.dropWhile p).reverse := by
  set l1 := l.dropWhile p with hl1
  set l2 := l1.reverse.dropWhile p with hl2
  have hsplit : l1 = l2.reverse ++ (l1.reverse.takeWhile p).reverse := by
    have htd := List.takeWhile_append_dropWhile (p := p) (l := l1.reverse)
    calc l1 = l1.reverse.reverse := (List.reverse_reverse l1).symm
      _ = (l1.reverse.takeWhile p ++ l2).reverse := by rw [hl2, htd]
      _ = l2.reverse ++ (l1.reverse.takeWhile p).reverse := by rw [List.reverse_append]
  have hA : l2.reverse.dropWhile p = l2.reverse := by
    apply dropWhile_eq_self_of_head
    intro a ha
    have hhead : l1.head? = some a := by
      rw [hsplit]
      cases hr : l2.reverse with
      | nil => rw [hr] at ha; simp at ha
      | cons b t =>
        rw [hr] at ha
        simp only [List.head?_cons, Option.some.injEq] at ha
        simp [ha]
    exact head_of_dropWhile_not p l a (by rw [← hl1]; exact hhead)
  rw [hA, List.reverse_reverse, hl2, dropWhile_self]

/-- Python `strip` is idempotent. -/
theorem pyStrip_idem (s : String) : pyStrip (pyStrip s) = pyStrip s := by
  unfold pyStrip
  exact congrArg String.mk (stripEnds_idem isPySpace s.data)

end OcrPipeline

namespace OcrPipeline

/-! Helper lemmas about base64. -/

/-- Decoding a base64 character recovers its 6-bit index. -/
theorem b64Index_b64Char : ∀ n, n < 64 → b64Index (b64Char n) = some n := by decide

/-- Base64 alphabet characters are never the padding character. -/
theorem b64Char_ne_pad : ∀ n, n < 64 → b64Char n ≠ '=' := by decide

/-- Decoding a two-pad chunk. -/
theorem b64Decode_pad2 (s1 s2 : Nat) (h1 : s1 < 64) (h2 : s2 < 64) :
    b64DecodeChunks [b64Char s1, b64Char s2, '=', '='] =
      some [(s1 * 262144 + s2 * 4096) / 65536] := by
  simp [b64DecodeChunks, b64Index_b64Char _ h1, b64Index_b64Char _ h2]

/-- Decoding a one-pad chunk. -/
theorem b64Decode_pad1 (s1 s2 s3 : Nat) (h1 : s1 < 64) (h2 : s2 < 64) (h3 : s3 < 64) :
    b64DecodeChunks [b64Char s1, b64Char s2, b64Char s3, '='] =
      some [(s1 * 262144 + s2 * 4096 + s3 * 64) / 65536,
            (s1 * 262144 + s2 * 4096 + s3 * 64) / 256 % 256] := by
  simp [b64DecodeChunks, b64Index_b64Char _ h1, b64Index_b64Char _ h2,
        b64Index_b64Char _ h3, b64Char_ne_pad _ h3]

/-- Decoding a full chunk followed by an already-decoded tail. -/
theorem b64Decode_quad (s1 s2 s3 s4 : Nat) (rest : List Char) (bs : List Nat)
    (h1 : s1 < 64) (h2 : s2 < 64) (h3 : s3 < 64) (h4 : s4 < 64)
    (hrest : b64DecodeChunks rest = some bs) :
    b64DecodeChunks (b64Char s1 :: b64Char s2 :: b64Char s3 :: b64Char s4 :: rest) =
      some ((s1 * 262144 + s2 * 4096 + s3 * 64 + s4) / 65536 ::
            (s1 * 262144 + s2 * 4096 + s3 * 64 + s4) / 256 % 256 ::
            (s1 * 262144 + s2 * 4096 + s3 * 64 + s4) % 256 :: bs) := by
  simp [b64DecodeChunks, b64Index_b64Char _ h1, b64Index_b64Char _ h2,
        b64Index_b64Char _ h3, b64Index_b64Char _ h4,
        b64Char_ne_pad _ h3, b64Char_ne_pad _ h4, hrest]

/-- Decoding inverts encoding on byte lists. -/
theorem b64_roundtrip : ∀ bs : List Nat, (∀ x ∈ bs, x < 256) →
    b64DecodeChunks (b64EncodeChunks bs) = some bs
  | [], _ => rfl
  | [a], h => by
    have ha : a < 256 := h a (by simp)
    show b64DecodeChunks [b64Char (a * 65536 / 262144), b64Char (a * 65536 / 4096 % 64), '=', '='] = some [a]
    rw [b64Decode_pad2 _ _ (by omega) (by omega)]
    congr 1
    simp only [List.cons.injEq, and_true]
    omega
  | [a, b], h => by
    have ha : a < 256 := h a (by simp)
    have hb : b < 256 := h b (by simp)
    show b64DecodeChunks [b64Char ((a * 65536 + b * 256) / 262144),
      b64Char ((a * 65536 + b * 256) / 4096 % 64),
      b64Char ((a * 65536 + b * 256) / 64 % 64), '='] = some [a, b]
    rw [b64Decode_pad1 _ _ _ (by omega) (by omega) (by omega)]
    congr 1
    simp only [List.cons.injEq, and_true]
    constructor
    · omega
    · omega
  | a :: b :: c :: rest, h => by
    have ha : a < 256 := h a (by simp)
    have hb : b < 256 := h b (by simp)
    have hc : c < 256 := h c (by simp)
    have ih := b64_roundtrip rest (fun x hx => h x (by simp [hx]))
    show b64DecodeChunks (b64Char ((a * 65536 + b * 256 + c) / 262144) ::
      b64Char ((a * 65536 + b * 256 + c) / 4096 % 64) ::
      b64Char ((a * 65536 + b * 256 + c) / 64 % 64) ::
      b64Char ((a * 65536 + b * 256 + c) % 64) :: b64EncodeChunks rest) = some (a :: b :: c :: rest)
    rw [b64Decode_quad _ _ _ _ _ rest (by omega) (by omega) (by omega) (by omega) ih]
    congr 1
    simp only [List.cons.injEq, and_true]
    refine ⟨by omega, by omega, by omega⟩

end OcrPipeline

namespace OcrPipeline

/-! Helper lemmas about the cleaning loop. -/

/-- When `f` succeeds on every element, `filterMap` keeps the length. -/
theorem filterMap_length_all_some {α β : Type} (f : α → Option β) :
    ∀ l : List α, (∀ a ∈ l, (f a).isSome) → (l.filterMap f).length = l.length := by
  intro l
  induction l with
  | nil => intro _; rfl
  | cons a t ih =>
    intro h
    have ha : (f a).isSome := h a (by simp)
    obtain ⟨b, hb⟩ := Option.isSome_iff_exists.mp ha
    simp [List.filterMap_cons, hb, ih (fun x hx => h x (by simp [hx]))]

/-- When `f` succeeds on every element, `filterMap` acts pointwise: the
record at index `i` of the output comes from the element at index `i`. -/
theorem filterMap_get_all_some {α β : Type} (f : α → Option β) :
    ∀ (l : List α), (∀ a ∈ l, (f a).isSome) →
      ∀ (i : Nat) (h1 : i < l.length) (h2 : i < (l.filterMap f).length),
        f (l.get ⟨i, h1⟩) = some ((l.filterMap f).get ⟨i, h2⟩) := by
  intro l
  induction l with
  | nil => intro _ i h1; exact absurd h1 (by simp)
  | cons a t ih =>
    intro h i h1 h2
    have ha : (f a).isSome := h a (by simp)
    obtain ⟨b, hb⟩ := Option.isSome_iff_exists.mp ha
    cases i with
    | zero => simp [List.filterMap_cons, hb]
    | succ j =>
      have ht : ∀ x ∈ t, (f x).isSome := fun x hx => h x (by simp [hx])
      have h1t : j < t.length := by simpa using h1
      have h2t : j < (t.filterMap f).length := by
        rw [filterMap_length_all_some f t ht]
        exact h1t
      have := ih ht j h1t h2t
      simpa [List.filterMap_cons, hb] using this

/-- Inversion of the per-element cleaning step: a produced record comes from
an object and carries exactly the four stripped field coercions, with the
discard guard false. -/
theorem cleanItem_some_inv (j : Json) (r : QARecord) (h : cleanItem j = some r) :
    ∃ kvs, j = Json.obj kvs ∧
      r = ⟨pyStrip (getStrField kvs "question_number"),
           pyStrip (getStrField kvs "question_text"),
           pyStrip (getStrField kvs "student_answer"),
           pyStrip (getStrField kvs "student_working")⟩ ∧
      ¬(pyStrip (getStrField kvs "question_number") = "" ∧
        pyStrip (getStrField kvs "question_text") = "") := by
  cases j with
  | obj kvs =>
    refine ⟨kvs, rfl, ?_⟩
    simp only [cleanItem] at h
    by_cases hg : pyStrip (getStrField kvs "question_number") = "" ∧
        pyStrip (getStrField kvs "question_text") = ""
    · rw [if_pos hg] at h; exact absurd h (by simp)
    · rw [if_neg hg] at h
      exact ⟨(Option.some.injEq _ _ ▸ h).symm, hg⟩
  | null => exact absurd h (by simp [cleanItem])
  | bool b => exact absurd h (by simp [cleanItem])
  | num n => exact absurd h (by simp [cleanItem])
  | str s => exact absurd h (by simp [cleanItem])
  | arr xs => exact absurd h (by simp [cleanItem])

/-- A well-formed record object is kept by the cleaning step. -/
theorem cleanItem_isSome_of_isRecordObj (j : Json) (h : isRecordObj j = true) :
    (cleanItem j).isSome := by
  cases j with
  | obj kvs =>
    have hg : ¬(pyStrip (getStrField kvs "question_number") = "" ∧
        pyStrip (getStrField kvs "question_text") = "") := by
      intro hg2
      simp only [isRecordObj, hg2.1, hg2.2] at h
      exact absurd h (by decide)
    simp only [cleanItem, if_neg hg, Option.isSome_some]
  | null => exact absurd h (by decide)
  | bool b => exact absurd h (by cases b <;> decide)
  | num n => exact absurd h (by simp [isRecordObj])
  | str s => exact absurd h (by simp [isRecordObj])
  | arr xs => exact absurd h (by simp [isRecordObj])

end OcrPipeline

namespace OcrPipeline

/-! The claims. -/

/-- C1: for every raw response text that parses as a JSON array whose
elements are all well-formed record objects, the parser returns exactly one
QARecord per input object, in the same order as the input array, and every
returned record has exactly the four fields question_number, question_text,
student_answer, student_working, each a whitespace-trimmed string. -/
theorem c1_wellformed_array_one_record_per_object
    (parse : String → Option Json) (raw : String) (items : List Json)
    (hparse : parse (pyStrip raw) = some (Json.arr items))
    (hwf : ∀ j ∈ items, isRecordObj j = true) :
    ∃ recs : List QARecord,
      parse_and_clean parse raw = ([], Except.ok recs) ∧
      recs.length = items.length ∧
      (∀ (i : Nat) (h1 : i < items.length) (h2 : i < recs.length),
        cleanItem (items.get ⟨i, h1⟩) = some (recs.get ⟨i, h2⟩)) ∧
      (∀ r ∈ recs, pyStrip r.question_number = r.question_number ∧
        pyStrip r.question_text = r.question_text ∧
        pyStrip r.student_answer = r.student_answer ∧
        pyStrip r.student_working = r.student_working) := by
  have hsome : ∀ j ∈ items, (cleanItem j).isSome :=
    fun j hj => cleanItem_isSome_of_isRecordObj j (hwf j hj)
  refine ⟨items.filterMap cleanItem, ?_, ?_, ?_, ?_⟩
  · simp [parse_and_clean, hparse, cleanRecords]
  · exact filterMap_length_all_some cleanItem items hsome
  · exact filterMap_get_all_some cleanItem items hsome
  · intro r hr
    obtain ⟨j, _, hj2⟩ := List.mem_filterMap.mp hr
    obtain ⟨kvs, _, hr2, _⟩ := cleanItem_some_inv j r hj2
    subst hr2
    exact ⟨pyStrip_idem _, pyStrip_idem _, pyStrip_idem _, pyStrip_idem _⟩

/-- Witness for C1 at a concrete one-object array. -/
theorem c1_witness :
    ∃ recs : List QARecord,
      parse_and_clean (fun _ => some (Json.arr [Json.obj [("question_number", Json.str "1"),
          ("question_text", Json.str " 2+2=? "), ("student_answer", Json.str "4"),
          ("student_working", Json.str "")]])) "x" = ([], Except.ok recs) ∧
      recs.length = 1 := by
  obtain ⟨recs, h1, h2, _⟩ := c1_wellformed_array_one_record_per_object
    (fun _ => some (Json.arr [Json.obj [("question_number", Json.str "1"),
      ("question_text", Json.str " 2+2=? "), ("student_answer", Json.str "4"),
      ("student_working", Json.str "")]])) "x"
    [Json.obj [("question_number", Json.str "1"), ("question_text", Json.str " 2+2=? "),
      ("student_answer", Json.str "4"), ("student_working", Json.str "")]]
    rfl (by decide)
  exact ⟨recs, h1, h2⟩

/-- C2: an object whose question_number and question_text are both empty
after trimming is discarded, regardless of the other fields; equivalently
every record the cleaning loop returns has a non-empty trimmed
question_number or question_text. -/
theorem c2_empty_identifiers_discarded :
    (∀ kvs : List (String × Json),
      pyStrip (getStrField kvs "question_number") = "" →
      pyStrip (getStrField kvs "question_text") = "" →
      cleanItem (Json.obj kvs) = none) ∧
    (∀ (data : Json) (recs : List QARecord), cleanRecords data = Except.ok recs →
      ∀ r ∈ recs, pyStrip r.question_number ≠ "" ∨ pyStrip r.question_text ≠ "") := by
  constructor
  · intro kvs h1 h2
    simp [cleanItem, h1, h2]
  · intro data recs hdata r hr
    cases data with
    | arr items =>
      simp only [cleanRecords, Except.ok.injEq] at hdata
      subst hdata
      obtain ⟨j, _, hj2⟩ := List.mem_filterMap.mp hr
      obtain ⟨kvs, _, hr2, hg⟩ := cleanItem_some_inv j r hj2
      subst hr2
      simp only [pyStrip_idem]
      tauto
    | null => exact absurd hdata (by simp [cleanRecords])
    | bool b => exact absurd hdata (by simp [cleanRecords])
    | num n => exact absurd hdata (by simp [cleanRecords])
    | str s => exact absurd hdata (by simp [cleanRecords])
    | obj kvs => exact absurd hdata (by simp [cleanRecords])

/-- Witness for C2: the record with both identifiers empty and a non-empty
student_answer is dropped. -/
theorem c2_witness :
    cleanItem (Json.obj [("question_number", Json.str ""), ("question_text", Json.str " "),
      ("student_answer", Json.str "x")]) = none :=
  c2_empty_identifiers_discarded.1
    [("question_number", Json.str ""), ("question_text", Json.str " "),
      ("student_answer", Json.str "x")] rfl rfl

end OcrPipeline

namespace OcrPipeline

/-- C3: raw response text that is not valid JSON (after stripping) makes the
parser stage fail with the MalformedResponse error, never a partial result,
and the raw offending text is printed for diagnostics before the error
propagates. -/
theorem c3_malformed_json_fails
    (parse : String → Option Json) (raw : String)
    (h : parse (pyStrip raw) = none) :
    parse_and_clean parse raw =
      (["Vision model JSON parse failed. Raw output below:\n", pyStrip raw],
       Except.error ExtractError.malformedResponse) := by
  simp [parse_and_clean, h]

/-- Witness for C3 at a concrete non-JSON text. -/
theorem c3_witness :
    parse_and_clean (fun _ => none) "not json" =
      (["Vision model JSON parse failed. Raw output below:\n", "not json"],
       Except.error ExtractError.malformedResponse) := by
  have h := c3_malformed_json_fails (fun _ => none) "not json" rfl
  simpa using h

/-- C4: raw text that parses to a JSON value whose top level is not an array
makes the extraction fail with the UnexpectedShape error and return no
records. -/
theorem c4_non_array_unexpected_shape
    (env : String → Option String) (key : String) (fileBytes : List Nat)
    (parse : String → Option Json) (modelOutput imagePath : String) (j : Json)
    (hkey : env "OPENAI_API_KEY" = some key) (hne : key ≠ "")
    (hp : parse (pyStrip modelOutput) = some j) (hj : j.isArr = false) :
    (extract_qa_from_image env fileBytes parse modelOutput imagePath).2 =
      Except.error ExtractError.unexpectedShape := by
  have hclean : cleanRecords j = Except.error ExtractError.unexpectedShape := by
    cases j with
    | arr xs => exact absurd hj (by simp [Json.isArr])
    | null => rfl
    | bool b => rfl
    | num n => rfl
    | str s => rfl
    | obj kvs => rfl
  simp [extract_qa_from_image, hkey, hne, parse_and_clean, hp, hclean]

/-- Witness for C4 at a concrete top-level JSON object. -/
theorem c4_witness :
    (extract_qa_from_image (fun _ => some "k") [] (fun _ => some (Json.obj [("a", Json.num 1)]))
      "" "img.jpg").2 = Except.error ExtractError.unexpectedShape :=
  c4_non_array_unexpected_shape (fun _ => some "k") "k" [] (fun _ => some (Json.obj [("a", Json.num 1)]))
    "" "img.jpg" (Json.obj [("a", Json.num 1)]) rfl (by decide) rfl rfl

/-- C5: an absent field defaults to the empty string; an object whose trimmed
question_number or question_text is non-empty is kept with exactly the four
stripped field coercions; in particular the spec's example input with only
question_number "2(a)" and an empty student_answer yields exactly one record
with the other fields empty. -/
theorem c5_absent_fields_default_empty :
    (∀ (kvs : List (String × Json)) (k : String),
      jsonLookup kvs k = none → getStrField kvs k = "") ∧
    (∀ kvs : List (String × Json),
      (pyStrip (getStrField kvs "question_number") ≠ "" ∨
       pyStrip (getStrField kvs "question_text") ≠ "") →
      cleanItem (Json.obj kvs) =
        some ⟨pyStrip (getStrField kvs "question_number"),
              pyStrip (getStrField kvs "question_text"),
              pyStrip (getStrField kvs "student_answer"),
              pyStrip (getStrField kvs "student_working")⟩) ∧
    cleanRecords (Json.arr [Json.obj [("question_number", Json.str "2(a)"),
        ("student_answer", Json.str "")]]) =
      Except.ok [⟨"2(a)", "", "", ""⟩] := by
  refine ⟨?_, ?_, rfl⟩
  · intro kvs k h
    simp [getStrField, h]
  · intro kvs h
    have hg : ¬(pyStrip (getStrField kvs "question_number") = "" ∧
        pyStrip (getStrField kvs "question_text") = "") := by tauto
    simp [cleanItem, if_neg hg]

/-- Witness for C5: retention with only question_text present. -/
theorem c5_witness :
    cleanItem (Json.obj [("question_text", Json.str "What is 2+2?")]) =
      some ⟨"", "What is 2+2?", "", ""⟩ := by
  have h := c5_absent_fields_default_empty.2.1
    [("question_text", Json.str "What is 2+2?")] (Or.inr (by decide))
  simpa using h

/-- C6: a non-object element of the top-level array is skipped silently and
does not change how sibling elements are processed nor the relative order of
the records they produce. -/
theorem c6_non_object_elements_skipped
    (pre post : List Json) (j : Json) (h : j.isObj = false) :
    cleanRecords (Json.arr (pre ++ j :: post)) = cleanRecords (Json.arr (pre ++ post)) := by
  have hj : cleanItem j = none := by
    cases j with
    | obj kvs => exact absurd h (by simp [Json.isObj])
    | null => rfl
    | bool b => rfl
    | num n => rfl
    | str s => rfl
    | arr xs => rfl
  simp [cleanRecords, List.filterMap_append, List.filterMap_cons, hj]

/-- Witness for C6: a stray string between two record objects changes
nothing. -/
theorem c6_witness :
    cleanRecords (Json.arr [Json.obj [("question_number", Json.str "1")],
        Json.str "noise", Json.obj [("question_number", Json.str "2")]]) =
      cleanRecords (Json.arr [Json.obj [("question_number", Json.str "1")],
        Json.obj [("question_number", Json.str "2")]]) :=
  c6_non_object_elements_skipped [Json.obj [("question_number", Json.str "1")]]
    [Json.obj [("question_number", Json.str "2")]] (Json.str "noise") rfl

/-- C7: non-string JSON field values are coerced with Python str(); a JSON
null becomes the non-empty string "None", so an object with null
question_number and question_text is retained with both fields "None"
instead of being dropped by the empty-identifier check. -/
theorem c7_null_coerced_to_None :
    pyStr Json.null = "None" ∧
    cleanRecords (Json.arr [Json.obj [("question_number", Json.null),
        ("question_text", Json.null)]]) =
      Except.ok [⟨"None", "None", "", ""⟩] :=
  ⟨rfl, rfl⟩

/-- C8: the image encoder emits a data URI whose base64 payload decodes back
to exactly the file's bytes (round-trip), for every byte content. -/
theorem c8_data_url_roundtrip (fileBytes : List Nat) (h : ∀ x ∈ fileBytes, x < 256) :
    image_to_data_url fileBytes = "data:image/jpeg;base64," ++ base64Encode fileBytes ∧
    base64Decode (base64Encode fileBytes) = some fileBytes :=
  ⟨rfl, b64_roundtrip fileBytes h⟩

/-- Witness for C8 on a concrete byte content. -/
theorem c8_witness :
    image_to_data_url [255, 216, 255, 224, 0] =
      "data:image/jpeg;base64," ++ base64Encode [255, 216, 255, 224, 0] ∧
    base64Decode (base64Encode [255, 216, 255, 224, 0]) = some [255, 216, 255, 224, 0] :=
  c8_data_url_roundtrip [255, 216, 255, 224, 0] (by decide)

/-- C9: when the credential is absent from the environment the extraction
fails with the ConfigurationError and performs no effect at all: the image
file is never read and no network request is made. -/
theorem c9_missing_credential_fails_before_io
    (env : String → Option String) (fileBytes : List Nat)
    (parse : String → Option Json) (modelOutput imagePath : String)
    (h : env "OPENAI_API_KEY" = none) :
    extract_qa_from_image env fileBytes parse modelOutput imagePath =
      ([], Except.error ExtractError.configurationError) := by
  simp [extract_qa_from_image, h]

/-- Witness for C9 with an empty environment. -/
theorem c9_witness :
    extract_qa_from_image (fun _ => none) [1, 2, 3] (fun _ => some (Json.arr []))
      "[]" "img.jpg" = ([], Except.error ExtractError.configurationError) :=
  c9_missing_credential_fails_before_io (fun _ => none) [1, 2, 3]
    (fun _ => some (Json.arr [])) "[]" "img.jpg" rfl

/-- C10: the data URL always carries the fixed image/jpeg MIME tag, whatever
the file's bytes actually contain. -/
theorem c10_mime_tag_fixed (fileBytes : List Nat) :
    ∃ payload, image_to_data_url fileBytes = "data:image/jpeg;base64," ++ payload :=
  ⟨base64Encode fileBytes, rfl⟩

end OcrPipeline
